import Mathlib

/-!
Verification development for the `yikes` password-manager core.

The repository's security core (src/server/utils/encryption.ts,
src/server/middleware/auth.ts, src/server/controllers/auth.ts,
src/server/controllers/credentials.ts) is shallowly embedded below:

* JavaScript strings are embedded as Lean `String`; the JS operations
  `startsWith`/`substring` are embedded as list operations on `String.data`.
* Node `Buffer`s are embedded as `List Nat` (one `Nat` per byte).
* Node's `crypto.randomBytes` is embedded by threading an explicit random
  stream `g : Nat → Nat` together with a position counter.
* External cryptographic primitives (AES-256-GCM, `EVP_BytesToKey`, PBKDF2,
  bcrypt, jsonwebtoken, otplib) are parameters of the model: the embedding
  keeps their call structure exactly as the source uses them and assumes
  only documented properties of them, stated as explicit hypotheses.
* The PostgreSQL store is embedded as an explicit record of row lists; each
  SQL statement of the source becomes the corresponding pure list operation.
* `try`/`catch` with early `return` becomes sequential functions returning a
  response/state pair; the one failure source the claims exercise (the audit
  sink being unavailable) is an explicit flag that makes the audit `INSERT`
  throw, landing in the generic `catch` block exactly as in the source.
-/

namespace Yikes

/-- Bytes of a Node `Buffer`, one `Nat` (expected < 256) per byte. -/
abbrev Bytes := List Nat

/-! ## JavaScript string operations -/

/-- Embedding of JS `s.startsWith(pre)`. -/
def jsStartsWith (s pre : String) : Bool :=
  pre.data.isPrefixOf s.data

/-- Embedding of JS `s.substring(n)`. -/
def jsSubstringFrom (n : Nat) (s : String) : String :=
  ⟨s.data.drop n⟩

/-- Embedding of JS falsiness for an optional string field of a JSON body:
`undefined` and the empty string are both falsy. -/
def isBlank (o : Option String) : Bool :=
  o.getD "" == ""

/-- Embedding of JS `s.toLowerCase()`, character by character. -/
def jsToLower (s : String) : String :=
  ⟨s.data.map Char.toLower⟩

theorem jsStartsWith_bearer (t : String) :
    jsStartsWith ("Bearer " ++ t) "Bearer " = true := by
  simp [jsStartsWith, String.data_append]

theorem jsSubstringFrom_bearer (t : String) :
    jsSubstringFrom 7 ("Bearer " ++ t) = t := by
  show String.mk ((String.data ("Bearer " ++ t)).drop 7) = t
  rw [String.data_append]
  rw [List.drop_left' (by rfl)]

/-! ## Hex encoding and decoding (Node `Buffer.from(s, 'hex')` /
`buf.toString('hex')`) -/

/-- Numeric value of one hex digit character; `none` on a non-hex character
(as in Node's hex decoder, which accepts both cases). -/
def hexDigitVal (c : Char) : Option Nat :=
  if 48 ≤ c.toNat ∧ c.toNat ≤ 57 then some (c.toNat - 48)
  else if 97 ≤ c.toNat ∧ c.toNat ≤ 102 then some (c.toNat - 87)
  else if 65 ≤ c.toNat ∧ c.toNat ≤ 70 then some (c.toNat - 55)
  else none

/-- Lowercase hex digit character for a value < 16 (Node's encoder emits
lowercase). -/
def hexDigitChar (v : Nat) : Char :=
  if v < 10 then Char.ofNat (48 + v) else Char.ofNat (87 + v)

/-- Two lowercase hex digits for one byte. -/
def hexEncodeByte (b : Nat) : List Char :=
  [hexDigitChar (b / 16 % 16), hexDigitChar (b % 16)]

/-- Decode hex characters pairwise; as in Node `Buffer.from(·, 'hex')`,
decoding stops at the first non-hex character or incomplete trailing pair. -/
def hexDecodeChars : List Char → Bytes
  | c1 :: c2 :: rest =>
    match hexDigitVal c1, hexDigitVal c2 with
    | some v1, some v2 => (16 * v1 + v2) :: hexDecodeChars rest
    | _, _ => []
  | _ => []

/-- Embedding of `Buffer.from(s, 'hex')`. -/
def hexDecode (s : String) : Bytes :=
  hexDecodeChars s.data

/-- Embedding of `buf.toString('hex')`. -/
def hexEncode (bs : Bytes) : String :=
  ⟨(bs.map hexEncodeByte).flatten⟩

/-- The sixteen characters Node's hex encoder can emit. -/
def lowerHexChars : List Char :=
  (List.range 16).map hexDigitChar

/-- A string already in the canonical form Node's hex encoder produces:
even length, lowercase hex digits only. -/
def isCanonicalHex (s : String) : Bool :=
  s.data.length % 2 == 0 && s.data.all (fun c => lowerHexChars.contains c)

theorem hexDigitVal_lt (c : Char) (v : Nat) (h : hexDigitVal c = some v) :
    v < 16 := by
  unfold hexDigitVal at h
  split at h
  next hc => simp only [Option.some.injEq] at h; omega
  next =>
    split at h
    next hc => simp only [Option.some.injEq] at h; omega
    next =>
      split at h
      next hc => simp only [Option.some.injEq] at h; omega
      next => exact absurd h (by simp)

theorem hexDigitVal_hexDigitChar (v : Nat) (h : v < 16) :
    hexDigitVal (hexDigitChar v) = some v := by
  interval_cases v <;> decide

theorem lowerHex_roundtrip (c : Char) (h : lowerHexChars.contains c = true) :
    (hexDigitVal c).isSome = true ∧
      hexDigitChar ((hexDigitVal c).getD 0) = c := by
  have hm : c ∈ lowerHexChars := by
    simpa [List.contains, List.elem_eq_mem] using h
  rw [lowerHexChars] at hm
  obtain ⟨v, hv, rfl⟩ := List.mem_map.mp hm
  have hvlt : v < 16 := List.mem_range.mp hv
  rw [hexDigitVal_hexDigitChar v hvlt]
  exact ⟨rfl, rfl⟩

theorem hexDecode_hexEncode (bs : Bytes) (h : ∀ b ∈ bs, b < 256) :
    hexDecode (hexEncode bs) = bs := by
  induction bs with
  | nil => rfl
  | cons b t ih =>
    have hb : b < 256 := h b (List.mem_cons_self b t)
    have h1 : b / 16 % 16 < 16 := Nat.mod_lt _ (by omega)
    have h2 : b % 16 < 16 := Nat.mod_lt _ (by omega)
    show hexDecodeChars (((b :: t).map hexEncodeByte).flatten) = b :: t
    simp only [List.map_cons, List.flatten_cons, hexEncodeByte]
    show hexDecodeChars
        (hexDigitChar (b / 16 % 16) :: hexDigitChar (b % 16) ::
          ((t.map hexEncodeByte).flatten)) = b :: t
    rw [hexDecodeChars]
    rw [hexDigitVal_hexDigitChar _ h1, hexDigitVal_hexDigitChar _ h2]
    have ht : hexDecodeChars ((t.map hexEncodeByte).flatten) = t :=
      ih (fun x hx => h x (List.mem_cons_of_mem _ hx))
    show (16 * (b / 16 % 16) + b % 16) :: hexDecodeChars ((t.map hexEncodeByte).flatten) = b :: t
    rw [ht]
    have hbv : 16 * (b / 16 % 16) + b % 16 = b := by omega
    rw [hbv]

/-- Two-at-a-time induction on a character list. -/
theorem twoStepInduction {P : List Char → Prop} (h0 : P [])
    (h1 : ∀ c, P [c]) (h2 : ∀ c1 c2 l, P l → P (c1 :: c2 :: l)) :
    ∀ l, P l
  | [] => h0
  | [c] => h1 c
  | c1 :: c2 :: l => h2 c1 c2 l (twoStepInduction h0 h1 h2 l)

theorem hexEncodeChars_hexDecodeChars (l : List Char)
    (heven : l.length % 2 = 0)
    (hhex : ∀ c ∈ l, lowerHexChars.contains c = true) :
    ((hexDecodeChars l).map hexEncodeByte).flatten = l := by
  induction l using twoStepInduction with
  | h0 => rfl
  | h1 c => simp at heven
  | h2 c1 c2 l ih =>
    have hc1 := lowerHex_roundtrip c1 (hhex c1 (by simp))
    have hc2 := lowerHex_roundtrip c2 (hhex c2 (by simp))
    obtain ⟨v1, hv1⟩ := Option.isSome_iff_exists.mp hc1.1
    obtain ⟨v2, hv2⟩ := Option.isSome_iff_exists.mp hc2.1
    have hb1 : v1 < 16 := hexDigitVal_lt c1 v1 hv1
    have hb2 : v2 < 16 := hexDigitVal_lt c2 v2 hv2
    rw [hexDecodeChars, hv1, hv2]
    simp only [List.map_cons, List.flatten_cons]
    have e1 : (16 * v1 + v2) / 16 % 16 = v1 := by omega
    have e2 : (16 * v1 + v2) % 16 = v2 := by omega
    have hch1 : hexDigitChar v1 = c1 := by
      have := hc1.2; rw [hv1] at this; simpa using this
    have hch2 : hexDigitChar v2 = c2 := by
      have := hc2.2; rw [hv2] at this; simpa using this
    rw [hexEncodeByte, e1, e2, hch1, hch2]
    have hl : ((hexDecodeChars l).map hexEncodeByte).flatten = l := by
      apply ih
      · have : (c1 :: c2 :: l).length = l.length + 2 := by simp
        omega
      · intro c hc; exact hhex c (by simp [hc])
    simp [hl]

theorem hexEncode_hexDecode (s : String) (h : isCanonicalHex s = true) :
    hexEncode (hexDecode s) = s := by
  unfold isCanonicalHex at h
  simp only [Bool.and_eq_true, beq_iff_eq, List.all_eq_true] at h
  show String.mk (((hexDecodeChars s.data).map hexEncodeByte).flatten) = s
  rw [hexEncodeChars_hexDecodeChars s.data h.1 (fun c hc => h.2 c hc)]

/-! ## Random stream (Node `crypto.randomBytes`) -/

/-- Draw `n` bytes from the random stream `g` at position `pos`; returns the
bytes and the advanced position. -/
def randomBytes (n : Nat) (g : Nat → Nat) (pos : Nat) : Bytes × Nat :=
  ((List.range n).map (fun i => g (pos + i) % 256), pos + n)

/-! ## EncryptionService (src/server/utils/encryption.ts)

The service is written against Node's `crypto` module.  The external
AES-256-GCM primitive and the key derivation `crypto.createCipher` performs
internally (OpenSSL `EVP_BytesToKey` applied to the password argument — this
is what the deprecated `createCipher`/`createDecipher` pair does; the caller
supplies no IV to them) are parameters of the model, bundled in `GcmCipher`.
-/

/-- Result shape of `EncryptionService.encrypt` (interface `EncryptedData`). -/
structure EncryptedData where
  encrypted : String
  iv : String
  authTag : String
  salt : String
  deriving Repr, DecidableEq

/-- Result shape of `EncryptionService.deriveMasterKey` (interface
`MasterKey`). -/
structure MasterKey where
  key : Bytes
  salt : String
  deriving Repr, DecidableEq

/-- External cipher machinery used by the service:
`evpKDF` is the key-and-IV derivation `crypto.createCipher`/`createDecipher`
perform on their password argument (EVP_BytesToKey; deterministic, no salt);
`enc key iv aad plaintext` returns (ciphertext hex, auth-tag bytes) of
AES-256-GCM; `dec key iv aad ciphertextHex tag` returns the plaintext or
`none` on authentication failure. -/
structure GcmCipher where
  evpKDF : Bytes → Bytes × Bytes
  enc : Bytes → Bytes → String → String → String × Bytes
  dec : Bytes → Bytes → String → String → Bytes → Option String

/-- The AAD string the service binds into every tag. -/
def gcmAAD : String := "yikes-password-manager"

/-- PBKDF2_ITERATIONS constant of the service. -/
def PBKDF2_ITERATIONS : Nat := 100000

/-- KEY_LENGTH constant of the service (bytes). -/
def KEY_LENGTH : Nat := 32

/-- IV_LENGTH constant of the service (bytes). -/
def IV_LENGTH : Nat := 16

/-- Embedding of `EncryptionService.deriveMasterKey(password, salt?)`.
`pbkdf2 password saltBytes iterations keyLen` is Node's
`crypto.pbkdf2(..., 'sha512')`, a parameter of the model.  The source picks
the salt with the truthiness check `salt ? Buffer.from(salt, 'hex') :
await randomBytes(32)`, so an omitted salt AND a supplied empty-string salt
(both falsy, `isBlank`) draw a fresh random salt; only a supplied non-empty
salt takes the deterministic branch. -/
def deriveMasterKey (pbkdf2 : String → Bytes → Nat → Nat → Bytes)
    (password : String) (salt : Option String) (g : Nat → Nat) (pos : Nat) :
    MasterKey × Nat :=
  if isBlank salt then
    let (saltBuffer, pos1) := randomBytes 32 g pos
    ({ key := pbkdf2 password saltBuffer PBKDF2_ITERATIONS KEY_LENGTH,
       salt := hexEncode saltBuffer }, pos1)
  else
    let saltBuffer := hexDecode (salt.getD "")
    ({ key := pbkdf2 password saltBuffer PBKDF2_ITERATIONS KEY_LENGTH,
       salt := hexEncode saltBuffer }, pos)

/-- Trace of one `EncryptionService.encrypt` call: the returned envelope,
the key and IV the cipher object actually used, and the advanced random
stream position. -/
structure EncryptOut where
  val : EncryptedData
  usedKey : Bytes
  usedIV : Bytes
  rngPos : Nat
  deriving Repr, DecidableEq

/-- Embedding of `EncryptionService.encrypt(data, masterKey)`.  The source
draws `iv = randomBytes(IV_LENGTH)` but then constructs the cipher with
`crypto.createCipher(ALGORITHM, masterKey)`, so the cipher derives its key
and IV from `masterKey` alone via `evpKDF`; the drawn `iv` is only reported
in the returned envelope.  `salt` is set to the empty string as in the
source. -/
def encryptRun (C : GcmCipher) (data : String) (masterKey : Bytes)
    (g : Nat → Nat) (pos : Nat) : EncryptOut :=
  let (ivBytes, pos1) := randomBytes IV_LENGTH g pos
  let derived := C.evpKDF masterKey
  let ct := C.enc derived.1 derived.2 gcmAAD data
  { val := { encrypted := ct.1, iv := hexEncode ivBytes,
             authTag := hexEncode ct.2, salt := "" },
    usedKey := derived.1, usedIV := derived.2, rngPos := pos1 }

/-- The envelope-and-stream view of `EncryptionService.encrypt`. -/
def encrypt (C : GcmCipher) (data : String) (masterKey : Bytes)
    (g : Nat → Nat) (pos : Nat) : EncryptedData × Nat :=
  ((encryptRun C data masterKey g pos).val,
   (encryptRun C data masterKey g pos).rngPos)

/-- Embedding of `EncryptionService.decrypt(encryptedData, masterKey)`.
The source parses `encryptedData.iv` into a buffer but never passes it to
`crypto.createDecipher`, which again derives key and IV from `masterKey`;
a thrown authentication error is `none`. -/
def decrypt (C : GcmCipher) (e : EncryptedData) (masterKey : Bytes) :
    Option String :=
  let _iv := hexDecode e.iv
  let authTag := hexDecode e.authTag
  let derived := C.evpKDF masterKey
  C.dec derived.1 derived.2 gcmAAD e.encrypted authTag

/-- Embedding of `EncryptionService.generateSalt()`. -/
def generateSalt (g : Nat → Nat) (pos : Nat) : String × Nat :=
  let (saltBytes, pos1) := randomBytes 32 g pos
  (hexEncode saltBytes, pos1)

/-! ## Database rows (tables of src/server/database/migrate.ts, record
shapes of src/server/types.ts) -/

/-- A row of the `users` table. -/
structure UserRow where
  id : String
  email : String
  passwordHash : String
  masterKeySalt : String
  twoFactorSecret : Option String
  twoFactorEnabled : Bool
  lastLoginAt : Option Nat
  deriving Repr, DecidableEq

/-- A row of the `sessions` table; times are epoch milliseconds. -/
structure SessionRow where
  id : String
  userId : String
  token : String
  expiresAt : Nat
  userAgent : Option String
  ipAddress : Option String
  deriving Repr, DecidableEq

/-- A row of the `security_audit` table. -/
structure AuditRow where
  userId : String
  action : String
  details : String
  ipAddress : Option String
  userAgent : Option String
  deriving Repr, DecidableEq

/-- A row of the `credentials` table. -/
structure CredentialRow where
  id : String
  userId : String
  title : String
  username : String
  password : String
  url : Option String
  notes : Option String
  folderId : Option String
  tags : List String
  favorite : Bool
  updatedAt : Nat
  deriving Repr, DecidableEq

/-- A row of the `password_history` table. -/
structure PasswordHistoryRow where
  credentialId : String
  password : String
  deriving Repr, DecidableEq

/-- A row of the `folders` table (only the columns the embedded handlers
consult). -/
structure FolderRow where
  id : String
  userId : String
  deriving Repr, DecidableEq

/-- The PostgreSQL store, one list per table. -/
structure Db where
  users : List UserRow
  sessions : List SessionRow
  credentials : List CredentialRow
  folders : List FolderRow
  passwordHistory : List PasswordHistoryRow
  audit : List AuditRow
  deriving Repr, DecidableEq

/-! ## External authentication primitives -/

/-- Outcome of `jwt.verify`: a decoded payload, or one of the two error
classes the middleware distinguishes. -/
inductive JwtResult where
  | ok (userId : String) (email : String)
  | invalid
  | expired
  deriving Repr, DecidableEq

/-- External primitives used by the controllers:
`bcryptCompare password hash` is `bcrypt.compare`;
`jwtSign userId email secret iat days` is `jwt.sign({userId, email}, secret,
{expiresIn})` with `expiresIn` of `days` days (`'24h'` is one day, `'7d'`
seven) issued at time `iat`;
`jwtVerify token secret now` is `jwt.verify(token, secret)` evaluated at
time `now`; `totpGen secret counter` is otplib's TOTP code for a 30-second
counter value. -/
structure CryptoEnv where
  bcryptCompare : String → String → Bool
  jwtSign : String → String → String → Nat → Nat → String
  jwtVerify : String → String → Nat → JwtResult
  totpGen : String → Nat → String

/-- The 30-second TOTP counter for a time in epoch milliseconds. -/
def totpCounter (nowMs : Nat) : Nat := nowMs / 30000

/-- Window check of otplib's `authenticator.verify`: the token is compared
against the generator output for the current counter and for counters up to
`window` steps on either side. -/
def totpVerifyWindow (gen : String → Nat → String) (secret token : String)
    (counter window : Nat) : Bool :=
  (List.range (window + 1)).any (fun d =>
    gen secret (counter + d) == token ||
      (decide (d ≤ counter) && gen secret (counter - d) == token))

/-- Embedding of `authenticator.verify({token, secret})` as called by the
login handler: otplib is used with its default options, whose window is `0`
(only the current 30-second step). -/
def otplibAuthenticatorVerify (gen : String → Nat → String)
    (secret token : String) (nowMs : Nat) : Bool :=
  totpVerifyWindow gen secret token (totpCounter nowMs) 0

/-- One day in milliseconds (`expiresAt.setDate(expiresAt.getDate() + n)`). -/
def dayMs : Nat := 86400000

/-! ## HTTP responses -/

/-- The JSON response shape `{success, message?, error?, data?}` together
with the HTTP status code; `token` carries `data.token` where a handler
returns one. -/
structure Resp where
  status : Nat
  success : Bool
  message : Option String := none
  error : Option String := none
  token : Option String := none
  deriving Repr, DecidableEq

/-- A `res.status(s).json({success: false, error: e})` response. -/
def errResp (s : Nat) (e : String) : Resp :=
  { status := s, success := false, error := some e }

/-! ## AuthMiddleware.authenticate (src/server/middleware/auth.ts) -/

/-- Outcome of the middleware: the request proceeds with `req.user`
attached, or it is terminated with an error response. -/
inductive AuthOutcome where
  | ok (user : UserRow)
  | err (status : Nat) (msg : String)
  deriving Repr, DecidableEq

/-- Whether the middleware let the request through. -/
def authOk : AuthOutcome → Bool
  | .ok _ => true
  | .err _ _ => false

/-- Token-level part of `AuthMiddleware.authenticate`, after the Bearer
header has been unwrapped.  `jwt.verify` failures land in the `catch`
block; its `instanceof jwt.JsonWebTokenError` arm also captures
`TokenExpiredError` (a subclass), so both produce `Invalid token`. -/
def authenticateToken (env : CryptoEnv) (jwtSecret : Option String)
    (token : String) (now : Nat) (db : Db) : AuthOutcome :=
  match jwtSecret with
  | none => .err 500 "Server configuration error"
  | some secret =>
    match env.jwtVerify token secret now with
    | .invalid => .err 401 "Invalid token"
    | .expired => .err 401 "Invalid token"
    | .ok uid _ =>
      match db.sessions.find?
          (fun s => s.token == token && decide (now < s.expiresAt)) with
      | none => .err 401 "Invalid or expired session"
      | some _ =>
        match db.users.find? (fun u => u.id == uid) with
        | none => .err 401 "User not found"
        | some u => .ok u

/-- Embedding of `AuthMiddleware.authenticate`: header unwrapping followed
by `authenticateToken`. -/
def authenticate (env : CryptoEnv) (jwtSecret : Option String)
    (authHeader : Option String) (now : Nat) (db : Db) : AuthOutcome :=
  match authHeader with
  | none => .err 401 "Access token required"
  | some h =>
    if jsStartsWith h "Bearer " then
      authenticateToken env jwtSecret (jsSubstringFrom 7 h) now db
    else .err 401 "Access token required"

theorem authenticate_bearer (env : CryptoEnv) (jwtSecret : Option String)
    (t : String) (now : Nat) (db : Db) :
    authenticate env jwtSecret (some ("Bearer " ++ t)) now db =
      authenticateToken env jwtSecret t now db := by
  show (if jsStartsWith ("Bearer " ++ t) "Bearer " = true then
      authenticateToken env jwtSecret (jsSubstringFrom 7 ("Bearer " ++ t)) now db
    else AuthOutcome.err 401 "Access token required") =
      authenticateToken env jwtSecret t now db
  rw [jsStartsWith_bearer, jsSubstringFrom_bearer]
  simp

/-! ## AuthController (src/server/controllers/auth.ts)

Request-scoped data that the source obtains from the express request, the
process environment, and non-deterministic sources (`uuidv4`, bcrypt's salt,
`crypto.randomBytes`) is passed in through `ReqCtx`.  The audit sink being
unavailable is modelled by `auditSinkUp = false`: the audit `INSERT` then
throws and control lands in the handler's generic `catch` block, which
responds 500 while every database write already executed stays applied. -/

/-- Request metadata, server configuration, and oracle values for the
non-deterministic choices a handler makes. -/
structure ReqCtx where
  ip : Option String
  userAgent : Option String
  jwtSecret : Option String
  auditSinkUp : Bool
  newId : String
  newSalt : String
  newHash : String
  deriving Repr, DecidableEq

/-- An `INSERT INTO security_audit` statement: appends the event, or throws
(`none`) when the audit sink is unavailable. -/
def auditInsert (ctx : ReqCtx) (userId action details : String) (db : Db) :
    Option Db :=
  if ctx.auditSinkUp then
    some { db with audit := db.audit ++
      [{ userId := userId, action := action, details := details,
         ipAddress := ctx.ip, userAgent := ctx.userAgent }] }
  else none

/-- Body of a register request. -/
structure RegisterReq where
  email : Option String
  password : Option String
  confirmPassword : Option String
  deriving Repr, DecidableEq

/-- Embedding of `AuthController.register`. -/
def register (ctx : ReqCtx) (req : RegisterReq) (db : Db) : Resp × Db :=
  if isBlank req.email || isBlank req.password || isBlank req.confirmPassword then
    (errResp 400 "All fields are required", db)
  else if req.password.getD "" ≠ req.confirmPassword.getD "" then
    (errResp 400 "Passwords do not match", db)
  else if (req.password.getD "").length < 12 then
    (errResp 400 "Password must be at least 12 characters long", db)
  else
    let email := jsToLower (req.email.getD "")
    match db.users.find? (fun u => u.email == email) with
    | some _ => (errResp 409 "User with this email already exists", db)
    | none =>
      let user : UserRow :=
        { id := ctx.newId, email := email, passwordHash := ctx.newHash,
          masterKeySalt := ctx.newSalt, twoFactorSecret := none,
          twoFactorEnabled := false, lastLoginAt := none }
      let db1 := { db with users := db.users ++ [user] }
      match auditInsert ctx user.id "USER_REGISTERED"
          "New user account created" db1 with
      | none => (errResp 500 "Registration failed", db1)
      | some db2 =>
        ({ status := 201, success := true,
           message := some "User registered successfully" }, db2)

/-- Body of a login request. -/
structure LoginReq where
  email : Option String
  password : Option String
  twoFactorCode : Option String
  rememberMe : Bool
  deriving Repr, DecidableEq

/-- Session issuance tail of `AuthController.login`, reached once the
password (and, when enrolled, the TOTP code) has been verified: signs the
JWT, inserts the session row, updates `last_login_at`, and records the
`LOGIN_SUCCESS` audit event. -/
def loginIssue (env : CryptoEnv) (ctx : ReqCtx) (req : LoginReq) (now : Nat)
    (user : UserRow) (db : Db) : Resp × Db :=
  match ctx.jwtSecret with
  | none => (errResp 500 "Server configuration error", db)
  | some secret =>
    let days := if req.rememberMe then 7 else 1
    let token := env.jwtSign user.id user.email secret now days
    let expiresAt := now + days * dayMs
    let db1 := { db with sessions := db.sessions ++
      [({ id := ctx.newId, userId := user.id, token := token,
          expiresAt := expiresAt, userAgent := ctx.userAgent,
          ipAddress := ctx.ip } : SessionRow)] }
    let db2 := { db1 with users := db1.users.map (fun u : UserRow =>
      if u.id == user.id then { u with lastLoginAt := some now } else u) }
    match auditInsert ctx user.id "LOGIN_SUCCESS"
        "User logged in successfully" db2 with
    | none => (errResp 500 "Login failed", db2)
    | some db3 =>
      ({ status := 200, success := true, message := some "Login successful",
         token := some token }, db3)

/-- Two-factor stage of `AuthController.login`, reached after the password
check passed. -/
def loginTwoFactor (env : CryptoEnv) (ctx : ReqCtx) (req : LoginReq)
    (now : Nat) (user : UserRow) (db : Db) : Resp × Db :=
  if user.twoFactorEnabled then
    if isBlank req.twoFactorCode then
      (errResp 400 "Two-factor authentication code required", db)
    else if ¬ otplibAuthenticatorVerify env.totpGen
        (user.twoFactorSecret.getD "") (req.twoFactorCode.getD "") now then
      match auditInsert ctx user.id "LOGIN_FAILED" "Invalid 2FA code" db with
      | none => (errResp 500 "Login failed", db)
      | some db1 =>
        (errResp 401 "Invalid two-factor authentication code", db1)
    else loginIssue env ctx req now user db
  else loginIssue env ctx req now user db

/-- Embedding of `AuthController.login`. -/
def login (env : CryptoEnv) (ctx : ReqCtx) (req : LoginReq) (now : Nat)
    (db : Db) : Resp × Db :=
  if isBlank req.email || isBlank req.password then
    (errResp 400 "Email and password are required", db)
  else
    let email := jsToLower (req.email.getD "")
    match db.users.find? (fun u => u.email == email) with
    | none => (errResp 401 "Invalid credentials", db)
    | some user =>
      if ¬ env.bcryptCompare (req.password.getD "") user.passwordHash then
        match auditInsert ctx user.id "LOGIN_FAILED" "Invalid password" db with
        | none => (errResp 500 "Login failed", db)
        | some db1 => (errResp 401 "Invalid credentials", db1)
      else loginTwoFactor env ctx req now user db

/-- Embedding of `AuthController.refreshToken`; `user` is `req.user` as
attached by the middleware. -/
def refreshToken (env : CryptoEnv) (ctx : ReqCtx) (user : UserRow)
    (authHeader : Option String) (now : Nat) (db : Db) : Resp × Db :=
  match ctx.jwtSecret with
  | none => (errResp 500 "Server configuration error", db)
  | some secret =>
    let token := env.jwtSign user.id user.email secret now 1
    let db1 :=
      match authHeader with
      | some h =>
        if jsStartsWith h "Bearer " then
          let oldToken := jsSubstringFrom 7 h
          let expiresAt := now + dayMs
          { db with sessions := db.sessions.map (fun s =>
              if s.token == oldToken then
                { s with token := token, expiresAt := expiresAt }
              else s) }
        else db
      | none => db
    ({ status := 200, success := true, token := some token }, db1)

/-! ## CredentialsController.update (src/server/controllers/credentials.ts)

The handler builds its `UPDATE` statement dynamically from the defined
fields of the request body (`Object.entries(updateData)` filtered on
`value !== undefined`); the embedding applies exactly those fields. -/

/-- Body of a credential update request (interface
`UpdateCredentialRequest`); `none` is an absent (`undefined`) field. -/
structure UpdateCredentialReq where
  title : Option String := none
  username : Option String := none
  password : Option String := none
  url : Option String := none
  notes : Option String := none
  folderId : Option String := none
  tags : Option (List String) := none
  favorite : Option Bool := none
  deriving Repr, DecidableEq

/-- Number of defined fields in the body (`updateFields.length` before the
`updated_at` column is appended). -/
def providedCount (u : UpdateCredentialReq) : Nat :=
  [u.title.isSome, u.username.isSome, u.password.isSome, u.url.isSome,
   u.notes.isSome, u.folderId.isSome, u.tags.isSome, u.favorite.isSome].count
    true

/-- Effect of the generated `UPDATE ... SET` on one credential row: every
defined field overwrites the column, `updated_at` is set to now. -/
def applyUpdate (u : UpdateCredentialReq) (now : Nat) (c : CredentialRow) :
    CredentialRow :=
  { c with
    title := u.title.getD c.title
    username := u.username.getD c.username
    password := u.password.getD c.password
    url := if u.url.isSome then u.url else c.url
    notes := if u.notes.isSome then u.notes else c.notes
    folderId := if u.folderId.isSome then u.folderId else c.folderId
    tags := u.tags.getD c.tags
    favorite := u.favorite.getD c.favorite
    updatedAt := now }

/-- Embedding of `CredentialsController.update`; `user` is `req.user`, `id`
the path parameter. -/
def updateCredential (ctx : ReqCtx) (user : UserRow) (id : String)
    (u : UpdateCredentialReq) (now : Nat) (db : Db) : Resp × Db :=
  match db.credentials.find? (fun c => c.id == id && c.userId == user.id) with
  | none => (errResp 404 "Credential not found", db)
  | some c0 =>
    if ¬ isBlank u.folderId ∧
        (db.folders.find? (fun f =>
          f.id == u.folderId.getD "" && f.userId == user.id)).isNone then
      (errResp 400 "Invalid folder", db)
    else if providedCount u = 0 then
      (errResp 400 "No fields to update", db)
    else
      let db1 := { db with credentials := db.credentials.map (fun c =>
        if c.id == id && c.userId == user.id then applyUpdate u now c
        else c) }
      match auditInsert ctx user.id "CREDENTIAL_UPDATED"
          ("Updated credential: " ++ (applyUpdate u now c0).title) db1 with
      | none => (errResp 500 "Failed to update credential", db1)
      | some db2 =>
        ({ status := 200, success := true,
           message := some "Credential updated successfully" }, db2)

/-! ## Demonstration instances used by witnesses and counterexamples -/

/-- The identity-modulo stream used as a concrete random source. -/
def demoG : Nat → Nat := fun n => n

/-- A concrete PBKDF2 stand-in satisfying the output-length contract. -/
def demoPbkdf2 : String → Bytes → Nat → Nat → Bytes :=
  fun _ _ _ l => List.replicate l 0

/-- A concrete sound `GcmCipher` instance. -/
def demoCipher : GcmCipher where
  evpKDF := fun k => (k.map (· % 256), k.map (· + 1 % 256))
  enc := fun key iv _ m => (m, (key ++ iv).map (· % 256))
  dec := fun key iv _ ct tag =>
    if tag = (key ++ iv).map (· % 256) then some ct else none

/-! ## Claims -/

/-- C1: the claim says every `encrypt` call uses a freshly generated random
nonce for the underlying cipher, never reused under the same key.  The code
draws a random `iv` but builds the cipher with `crypto.createCipher`, so
the nonce the cipher actually uses is derived from the master key alone:
two successive `encrypt` calls (the second starting at the random-stream
position where the first stopped) use the identical cipher nonce, for every
plaintext pair and every key, while the drawn randomness only decorates the
envelope's unused `iv` field. -/
theorem encrypt_reuses_cipher_nonce (C : GcmCipher) (d1 d2 : String)
    (k : Bytes) (g : Nat → Nat) (pos : Nat) :
    (encryptRun C d1 k g pos).usedIV =
        (encryptRun C d2 k g (encryptRun C d1 k g pos).rngPos).usedIV ∧
      (encryptRun C d1 k g pos).usedIV = (C.evpKDF k).2 ∧
      (encryptRun C d1 k g pos).val.iv =
        hexEncode (randomBytes IV_LENGTH g pos).1 := by
  exact ⟨rfl, rfl, rfl⟩

/-- C1 evaluation at the failing input: two successive encryptions of
`"data"` under key `[1, 2, 3]` with the demonstration cipher use the same
underlying nonce even though their envelopes carry different `iv` fields. -/
theorem encrypt_nonce_reuse_concrete :
    (encryptRun demoCipher "data" [1, 2, 3] demoG 0).usedIV =
        (encryptRun demoCipher "data" [1, 2, 3] demoG
          (encryptRun demoCipher "data" [1, 2, 3] demoG 0).rngPos).usedIV ∧
      (encryptRun demoCipher "data" [1, 2, 3] demoG 0).val.iv ≠
        (encryptRun demoCipher "data" [1, 2, 3] demoG
          (encryptRun demoCipher "data" [1, 2, 3] demoG 0).rngPos).val.iv := by
  constructor
  · rfl
  · decide

/-- C2: for every plaintext and master key, decrypting the envelope
produced by `encrypt` with the same master key returns the original
plaintext, for any cipher satisfying the AES-GCM decryption identity and
producing byte-valued tags. -/
theorem decrypt_encrypt_roundtrip (C : GcmCipher)
    (hSound : ∀ key iv aad m,
      C.dec key iv aad (C.enc key iv aad m).1 (C.enc key iv aad m).2 = some m)
    (hTag : ∀ key iv aad m, ∀ b ∈ (C.enc key iv aad m).2, b < 256)
    (data : String) (masterKey : Bytes) (g : Nat → Nat) (pos : Nat) :
    decrypt C (encrypt C data masterKey g pos).1 masterKey = some data := by
  unfold decrypt encrypt encryptRun
  simp only
  rw [hexDecode_hexEncode _ (hTag _ _ _ _)]
  exact hSound _ _ _ _

/-- C2 witness: the round trip evaluated on a concrete plaintext, key and
random stream with the demonstration cipher. -/
theorem decrypt_encrypt_roundtrip_witness :
    decrypt demoCipher
      (encrypt demoCipher "p@ss1234" [7, 300, 5] demoG 0).1 [7, 300, 5] =
      some "p@ss1234" := by
  refine decrypt_encrypt_roundtrip demoCipher ?_ ?_ "p@ss1234" [7, 300, 5]
    demoG 0
  · intro key iv aad m
    simp [demoCipher]
  · intro key iv aad m b hb
    simp only [demoCipher, List.mem_map] at hb
    obtain ⟨x, _, rfl⟩ := hb
    exact Nat.mod_lt _ (by omega)

/-- C3 counterexample: with the salt supplied as `"AB"` (valid hex, but not
in the lowercase form Node's encoder emits), `deriveMasterKey` returns the
salt `"ab"`, so the returned salt does not equal the supplied one. -/
theorem deriveMasterKey_salt_not_echoed :
    (deriveMasterKey demoPbkdf2 "secret" (some "AB") demoG 0).1.salt ≠
      "AB" := by
  decide

/-- C3 amended: with a non-empty salt supplied, `deriveMasterKey` is
deterministic — two calls with identical secret and salt yield the
identical key and salt, independently of the random stream — and the key
has 32 bytes whenever the PBKDF2 primitive honours its output-length
parameter; the returned salt is the lowercase hex re-encoding of the parsed
supplied salt, which equals the supplied salt exactly when that salt is
already an even-length lowercase hex string.  A supplied empty-string salt
is falsy in the source's `salt ? ... : ...` check and behaves exactly like
an omitted salt: a fresh random salt is drawn, so determinism does not
extend to it. -/
theorem deriveMasterKey_deterministic (pbkdf2 : String → Bytes → Nat → Nat → Bytes)
    (hLen : ∀ p s i l, (pbkdf2 p s i l).length = l)
    (password s : String) (g1 g2 : Nat → Nat) (p1 p2 : Nat)
    (hs : (s == "") = false) :
    (deriveMasterKey pbkdf2 password (some s) g1 p1).1 =
        (deriveMasterKey pbkdf2 password (some s) g2 p2).1 ∧
      (deriveMasterKey pbkdf2 password (some s) g1 p1).1.salt =
        hexEncode (hexDecode s) ∧
      (isCanonicalHex s = true →
        (deriveMasterKey pbkdf2 password (some s) g1 p1).1.salt = s) ∧
      (deriveMasterKey pbkdf2 password (some s) g1 p1).1.key.length = 32 ∧
      deriveMasterKey pbkdf2 password (some "") g1 p1 =
        deriveMasterKey pbkdf2 password none g1 p1 := by
  have hb : isBlank (some s) = false := by
    simpa [isBlank] using hs
  refine ⟨?_, ?_, ?_, ?_, ?_⟩
  · simp [deriveMasterKey, hb]
  · simp [deriveMasterKey, hb]
  · intro hcanon
    simp only [deriveMasterKey, hb, Bool.false_eq_true, if_false]
    exact hexEncode_hexDecode s hcanon
  · simp only [deriveMasterKey, hb, Bool.false_eq_true, if_false]
    exact hLen password (hexDecode s) PBKDF2_ITERATIONS 32
  · simp [deriveMasterKey, isBlank]

/-- C3 witness: determinism and salt echoing evaluated at the non-empty
canonical salt `"00ff"` with the demonstration PBKDF2. -/
theorem deriveMasterKey_deterministic_witness :
    (deriveMasterKey demoPbkdf2 "secret" (some "00ff") demoG 0).1 =
        (deriveMasterKey demoPbkdf2 "secret" (some "00ff") (fun n => n + 9)
          3).1 ∧
      (deriveMasterKey demoPbkdf2 "secret" (some "00ff") demoG 0).1.salt =
        "00ff" := by
  have h := deriveMasterKey_deterministic demoPbkdf2
    (fun p s i l => by simp [demoPbkdf2]) "secret" "00ff" demoG
    (fun n => n + 9) 0 3 (by decide)
  exact ⟨h.1, h.2.2.1 (by decide)⟩

/-- A user with a second factor enrolled, for the login scenarios. -/
def demoUser : UserRow where
  id := "u1"
  email := "alice@example.com"
  passwordHash := "correct-pw"
  masterKeySalt := "aa"
  twoFactorSecret := some "k"
  twoFactorEnabled := true
  lastLoginAt := none

/-- A store holding only `demoUser`. -/
def demoDb : Db where
  users := [demoUser]
  sessions := []
  credentials := []
  folders := []
  passwordHistory := []
  audit := []

/-- Concrete external primitives: bcrypt compares against the stored string
itself, the TOTP code for counter `c` is the secret followed by `c`. -/
def demoEnv : CryptoEnv where
  bcryptCompare := fun p h => p == h
  jwtSign := fun uid _ _ iat days =>
    "jwt-" ++ uid ++ "-" ++ toString iat ++ "-" ++ toString days
  jwtVerify := fun _ _ _ => .invalid
  totpGen := fun s c => s ++ toString c

/-- Concrete request context with the audit sink available. -/
def demoCtx : ReqCtx where
  ip := none
  userAgent := none
  jwtSecret := some "jsec"
  auditSinkUp := true
  newId := "sid1"
  newSalt := "aa"
  newHash := "h"

/-- C4 counterexample: against `demoDb`, a wrong-password login yields
status 401 with error `Invalid credentials` and an audit event, while the
same user logging in with the correct password but no one-time code yields
status 400 with a different error and no audit event — the failure
responses differ in status class and payload, and the missing-code reason
is not recorded in the audit trail. -/
theorem login_failures_not_uniform :
    (login demoEnv demoCtx
        { email := some "alice@example.com", password := some "bad",
          twoFactorCode := none, rememberMe := false } 0 demoDb).1 =
      errResp 401 "Invalid credentials" ∧
    (login demoEnv demoCtx
        { email := some "alice@example.com", password := some "correct-pw",
          twoFactorCode := none, rememberMe := false } 0 demoDb).1 =
      errResp 400 "Two-factor authentication code required" ∧
    (401 : Nat) ≠ 400 ∧
    (login demoEnv demoCtx
        { email := some "alice@example.com", password := some "correct-pw",
          twoFactorCode := none, rememberMe := false } 0 demoDb).2.audit =
      [] := by
  refine ⟨?_, ?_, by decide, ?_⟩ <;> decide

/-- C4 amended: the three login failure modes are all rejected, but not
uniformly.  A wrong password yields 401 `Invalid credentials` with a
`LOGIN_FAILED / Invalid password` audit event; a missing one-time code for
an enrolled account yields 400 `Two-factor authentication code required`
with no audit event and no other state change; an invalid one-time code
yields 401 `Invalid two-factor authentication code` with a
`LOGIN_FAILED / Invalid 2FA code` audit event. -/
theorem login_failure_modes (env : CryptoEnv) (ctx : ReqCtx) (req : LoginReq)
    (now : Nat) (db : Db) (user : UserRow)
    (hbe : isBlank req.email = false) (hbp : isBlank req.password = false)
    (hfind : db.users.find?
      (fun u => u.email == jsToLower (req.email.getD "")) = some user)
    (hsink : ctx.auditSinkUp = true) :
    (env.bcryptCompare (req.password.getD "") user.passwordHash = false →
      login env ctx req now db =
        (errResp 401 "Invalid credentials",
         { db with audit := db.audit ++
            [{ userId := user.id, action := "LOGIN_FAILED",
               details := "Invalid password", ipAddress := ctx.ip,
               userAgent := ctx.userAgent }] })) ∧
    (env.bcryptCompare (req.password.getD "") user.passwordHash = true →
      user.twoFactorEnabled = true → isBlank req.twoFactorCode = true →
      login env ctx req now db =
        (errResp 400 "Two-factor authentication code required", db)) ∧
    (env.bcryptCompare (req.password.getD "") user.passwordHash = true →
      user.twoFactorEnabled = true → isBlank req.twoFactorCode = false →
      otplibAuthenticatorVerify env.totpGen (user.twoFactorSecret.getD "")
        (req.twoFactorCode.getD "") now = false →
      login env ctx req now db =
        (errResp 401 "Invalid two-factor authentication code",
         { db with audit := db.audit ++
            [{ userId := user.id, action := "LOGIN_FAILED",
               details := "Invalid 2FA code", ipAddress := ctx.ip,
               userAgent := ctx.userAgent }] })) := by
  refine ⟨?_, ?_, ?_⟩
  · intro hpw
    simp [login, hbe, hbp, hfind, hpw, auditInsert, hsink]
  · intro hpw h2fa hcode
    simp [login, hbe, hbp, hfind, hpw, loginTwoFactor, h2fa, hcode]
  · intro hpw h2fa hcode hotp
    simp [login, hbe, hbp, hfind, hpw, loginTwoFactor, h2fa, hcode, hotp,
      auditInsert, hsink]

/-- The default otplib configuration checks only the current 30-second
counter: with window 0 the verification accepts exactly the generator
output for the current counter. -/
theorem totpVerifyWindow_zero (gen : String → Nat → String)
    (secret token : String) (counter : Nat) :
    totpVerifyWindow gen secret token counter 0 =
      (gen secret counter == token) := by
  have h1 : List.range 1 = [0] := by decide
  simp [totpVerifyWindow, h1, Bool.or_self]

/-- C9 counterexample: with `demoEnv`, the code for the 30-second window
immediately preceding the current one (counter 4 at time 150000 ms, within
counter 5) is rejected by login with 401 and no session is created — the
implementation does not accept codes from adjacent windows. -/
theorem login_rejects_adjacent_window_code :
    demoEnv.totpGen "k" 4 = "k4" ∧
    totpCounter 150000 = 5 ∧
    demoEnv.totpGen "k" 4 ≠ demoEnv.totpGen "k" 5 ∧
    (login demoEnv demoCtx
        { email := some "alice@example.com", password := some "correct-pw",
          twoFactorCode := some "k4", rememberMe := false } 150000
        demoDb).1 =
      errResp 401 "Invalid two-factor authentication code" ∧
    (login demoEnv demoCtx
        { email := some "alice@example.com", password := some "correct-pw",
          twoFactorCode := some "k4", rememberMe := false } 150000
        demoDb).2.sessions = [] := by
  refine ⟨by decide, by decide, by decide, by decide, by decide⟩

/-- C9 amended: for an account with a second factor enrolled, login runs a
TOTP check that accepts exactly the code of the current 30-second window
(otplib's default window is 0, so the immediately adjacent windows are
rejected); on a wrong code the login is rejected with 401 and no session
row is created, and on the current-window code a session is issued. -/
theorem login_totp_current_window_only (env : CryptoEnv) (ctx : ReqCtx)
    (req : LoginReq) (now : Nat) (db : Db) (user : UserRow) (code : String)
    (hbe : isBlank req.email = false) (hbp : isBlank req.password = false)
    (hfind : db.users.find?
      (fun u => u.email == jsToLower (req.email.getD "")) = some user)
    (hsink : ctx.auditSinkUp = true)
    (hpw : env.bcryptCompare (req.password.getD "") user.passwordHash = true)
    (h2fa : user.twoFactorEnabled = true)
    (hcode : req.twoFactorCode = some code) (hne : (code == "") = false) :
    (otplibAuthenticatorVerify env.totpGen (user.twoFactorSecret.getD "")
        code now =
      (env.totpGen (user.twoFactorSecret.getD "") (totpCounter now) ==
        code)) ∧
    (env.totpGen (user.twoFactorSecret.getD "") (totpCounter now) ≠ code →
      (login env ctx req now db).1 =
          errResp 401 "Invalid two-factor authentication code" ∧
        (login env ctx req now db).2.sessions = db.sessions) ∧
    (∀ sec, env.totpGen (user.twoFactorSecret.getD "") (totpCounter now) =
        code →
      ctx.jwtSecret = some sec →
      (login env ctx req now db).1.status = 200 ∧
        (login env ctx req now db).1.success = true ∧
        (login env ctx req now db).2.sessions = db.sessions ++
          [{ id := ctx.newId, userId := user.id,
             token := env.jwtSign user.id user.email sec now
               (if req.rememberMe then 7 else 1),
             expiresAt := now + (if req.rememberMe then 7 else 1) * dayMs,
             userAgent := ctx.userAgent, ipAddress := ctx.ip }]) := by
  have hb2 : isBlank (some code) = false := by
    simpa [isBlank] using hne
  refine ⟨totpVerifyWindow_zero env.totpGen _ code (totpCounter now), ?_, ?_⟩
  · intro hbad
    have hver : otplibAuthenticatorVerify env.totpGen
        (user.twoFactorSecret.getD "") code now = false := by
      show totpVerifyWindow env.totpGen _ code (totpCounter now) 0 = false
      rw [totpVerifyWindow_zero]
      simpa using hbad
    constructor <;>
      simp [login, hbe, hbp, hfind, hpw, loginTwoFactor, h2fa, hcode, hb2,
        hver, auditInsert, hsink]
  · intro sec hgood hsec
    have hver : otplibAuthenticatorVerify env.totpGen
        (user.twoFactorSecret.getD "") code now = true := by
      show totpVerifyWindow env.totpGen _ code (totpCounter now) 0 = true
      rw [totpVerifyWindow_zero]
      simpa using hgood
    refine ⟨?_, ?_, ?_⟩ <;>
      simp [login, hbe, hbp, hfind, hpw, loginTwoFactor, h2fa, hcode, hb2,
        hver, loginIssue, hsec, auditInsert, hsink, dayMs]

/-- C9 witness: the current-window code `"k5"` at time 150000 ms logs
`demoUser` in and creates the session row. -/
theorem login_totp_current_window_witness :
    (login demoEnv demoCtx
        { email := some "alice@example.com", password := some "correct-pw",
          twoFactorCode := some "k5", rememberMe := false } 150000
        demoDb).1.status = 200 ∧
      (login demoEnv demoCtx
        { email := some "alice@example.com", password := some "correct-pw",
          twoFactorCode := some "k5", rememberMe := false } 150000
        demoDb).2.sessions =
        [{ id := "sid1", userId := "u1",
           token := demoEnv.jwtSign "u1" "alice@example.com" "jsec" 150000 1,
           expiresAt := 150000 + 1 * dayMs, userAgent := none,
           ipAddress := none }] := by
  have h := (login_totp_current_window_only demoEnv demoCtx
      { email := some "alice@example.com", password := some "correct-pw",
        twoFactorCode := some "k5", rememberMe := false } 150000 demoDb
      demoUser "k5" (by decide) (by decide) (by decide) (by decide)
      (by decide) (by decide) rfl (by decide)).2.2 "jsec" (by decide) rfl
  exact ⟨h.1, h.2.2⟩

/-- C4 witness: the missing-code branch of `login_failure_modes` evaluated
on the demonstration store. -/
theorem login_failure_modes_witness :
    login demoEnv demoCtx
        { email := some "alice@example.com", password := some "correct-pw",
          twoFactorCode := none, rememberMe := false } 0 demoDb =
      (errResp 400 "Two-factor authentication code required", demoDb) := by
  exact (login_failure_modes demoEnv demoCtx
      { email := some "alice@example.com", password := some "correct-pw",
        twoFactorCode := none, rememberMe := false } 0 demoDb demoUser
      (by decide) (by decide) (by decide) (by decide)).2.1
    (by decide) (by decide) (by decide)

/-- A user without a second factor, for the audit-sink and credential
scenarios. -/
def demoUserBob : UserRow where
  id := "u2"
  email := "bob@example.com"
  passwordHash := "pw2"
  masterKeySalt := "bb"
  twoFactorSecret := none
  twoFactorEnabled := false
  lastLoginAt := none

/-- A store holding only `demoUserBob`. -/
def demoDbBob : Db where
  users := [demoUserBob]
  sessions := []
  credentials := []
  folders := []
  passwordHistory := []
  audit := []

/-- The request context with the audit sink unavailable. -/
def demoCtxDown : ReqCtx where
  ip := none
  userAgent := none
  jwtSecret := some "jsec"
  auditSinkUp := false
  newId := "sid1"
  newSalt := "aa"
  newHash := "h"

/-- C8: the claim says a failing audit write never fails the triggering
operation.  In the code the audit `INSERT` runs inside the handler's `try`
block: when the audit sink is unavailable, a login with valid credentials
creates its session row and updates `last_login_at`, yet the generic
`catch` answers 500 `Login failed` — the operation's effects are applied
but the caller is told it failed. -/
theorem login_fails_when_audit_sink_down :
    (login demoEnv demoCtxDown
        { email := some "bob@example.com", password := some "pw2",
          twoFactorCode := none, rememberMe := false } 0 demoDbBob).1 =
      errResp 500 "Login failed" ∧
    (login demoEnv demoCtxDown
        { email := some "bob@example.com", password := some "pw2",
          twoFactorCode := none, rememberMe := false } 0 demoDbBob).2.sessions =
      [{ id := "sid1", userId := "u2", token := "jwt-u2-0-1",
         expiresAt := 86400000, userAgent := none, ipAddress := none }] ∧
    (login demoEnv demoCtxDown
        { email := some "bob@example.com", password := some "pw2",
          twoFactorCode := none, rememberMe := false } 0 demoDbBob).2.audit =
      [] := by
  refine ⟨by decide, by decide, by decide⟩

/-- A stored credential owned by `demoUserBob`. -/
def demoCred : CredentialRow where
  id := "c1"
  userId := "u2"
  title := "Bank"
  username := "alice"
  password := "envelope0"
  url := none
  notes := none
  folderId := none
  tags := []
  favorite := false
  updatedAt := 0

/-- The store holding `demoUserBob` and `demoCred`. -/
def demoDbCred : Db where
  users := [demoUserBob]
  sessions := []
  credentials := [demoCred]
  folders := []
  passwordHistory := []
  audit := []

/-- An update request that overwrites only the password field. -/
def pwUpdate (p : String) : UpdateCredentialReq :=
  { password := some p }

/-- C7: the claim says each password overwrite first appends the previous
envelope to PasswordHistory.  The update handler builds its dynamic
`UPDATE` from the supplied fields and never writes to `password_history`
(the table exists in the schema but no code inserts into it): after three
successful password updates the history is still empty instead of holding
the two prior envelopes. -/
theorem update_never_appends_password_history :
    (updateCredential demoCtx demoUserBob "c1" (pwUpdate "envelope1") 1
        demoDbCred).1.status = 200 ∧
    (updateCredential demoCtx demoUserBob "c1" (pwUpdate "envelope2") 2
        (updateCredential demoCtx demoUserBob "c1" (pwUpdate "envelope1") 1
          demoDbCred).2).1.status = 200 ∧
    (updateCredential demoCtx demoUserBob "c1" (pwUpdate "envelope3") 3
        (updateCredential demoCtx demoUserBob "c1" (pwUpdate "envelope2") 2
          (updateCredential demoCtx demoUserBob "c1"
            (pwUpdate "envelope1") 1 demoDbCred).2).2).1.status = 200 ∧
    ((updateCredential demoCtx demoUserBob "c1" (pwUpdate "envelope3") 3
        (updateCredential demoCtx demoUserBob "c1" (pwUpdate "envelope2") 2
          (updateCredential demoCtx demoUserBob "c1"
            (pwUpdate "envelope1") 1 demoDbCred).2).2).2.credentials.map
      (fun c => c.password)) = ["envelope3"] ∧
    (updateCredential demoCtx demoUserBob "c1" (pwUpdate "envelope3") 3
        (updateCredential demoCtx demoUserBob "c1" (pwUpdate "envelope2") 2
          (updateCredential demoCtx demoUserBob "c1"
            (pwUpdate "envelope1") 1 demoDbCred).2).2).2.passwordHistory =
      [] := by
  refine ⟨by decide, by decide, by decide, by decide, by decide⟩

/-- C10: every register request with a missing required field, mismatched
confirmation, or a password shorter than 12 characters is rejected with
status 400 and leaves the store untouched — no user row and no audit event
is created. -/
theorem register_validation_rejects (ctx : ReqCtx) (req : RegisterReq)
    (db : Db)
    (h : isBlank req.email = true ∨ isBlank req.password = true ∨
      isBlank req.confirmPassword = true ∨
      req.password.getD "" ≠ req.confirmPassword.getD "" ∨
      (req.password.getD "").length < 12) :
    (register ctx req db).1.status = 400 ∧
      (register ctx req db).1.success = false ∧
      (register ctx req db).2 = db := by
  unfold register
  split_ifs with h1 h2 h3
  · exact ⟨rfl, rfl, rfl⟩
  · exact ⟨rfl, rfl, rfl⟩
  · exact ⟨rfl, rfl, rfl⟩
  · exfalso
    simp only [Bool.or_eq_true, not_or] at h1
    obtain ⟨⟨he, hp⟩, hcf⟩ := h1
    rcases h with hc | hc | hc | hc | hc
    · exact he hc
    · exact hp hc
    · exact hcf hc
    · exact h2 hc
    · exact h3 hc

/-- C10 witness: a 5-character password is rejected and the demonstration
store is unchanged. -/
theorem register_validation_rejects_witness :
    (register demoCtx
        { email := some "carol@example.com", password := some "short",
          confirmPassword := some "short" } demoDbBob).1.status = 400 ∧
      (register demoCtx
        { email := some "carol@example.com", password := some "short",
          confirmPassword := some "short" } demoDbBob).1.success = false ∧
      (register demoCtx
        { email := some "carol@example.com", password := some "short",
          confirmPassword := some "short" } demoDbBob).2 = demoDbBob := by
  exact register_validation_rejects demoCtx
    { email := some "carol@example.com", password := some "short",
      confirmPassword := some "short" } demoDbBob (by decide)

/-- Concrete primitives whose JWT verifier accepts exactly the token
`"tok"`, decoding it to user `u1`. -/
def demoEnvJwt : CryptoEnv where
  bcryptCompare := fun p h => p == h
  jwtSign := fun uid _ _ _ _ => "jwt-" ++ uid
  jwtVerify := fun t _ _ => if t == "tok" then .ok "u1" "alice@example.com"
    else .invalid
  totpGen := fun s c => s ++ toString c

/-- A session row for token `"tok"` expiring at time 100. -/
def demoSession : SessionRow where
  id := "s1"
  userId := "u1"
  token := "tok"
  expiresAt := 100
  userAgent := none
  ipAddress := none

/-- A store with the `"tok"` session but no user rows. -/
def demoDbNoUser : Db where
  users := []
  sessions := [demoSession]
  credentials := []
  folders := []
  passwordHistory := []
  audit := []

/-- The store with both the `"tok"` session and `demoUser`. -/
def demoDbSession : Db where
  users := [demoUser]
  sessions := [demoSession]
  credentials := []
  folders := []
  passwordHistory := []
  audit := []

/-- C6 counterexample: an unexpired session row with the presented token
exists, yet validation rejects the request (the decoded user row is
absent), so "returns the Session exactly when a session row with that
token exists and its expiry has not passed" is false of the code. -/
theorem validate_not_characterized_by_session_row_alone :
    (demoDbNoUser.sessions.find?
        (fun s => s.token == "tok" && decide ((0 : Nat) < s.expiresAt))).isSome
        = true ∧
      authenticate demoEnvJwt (some "sec") (some "Bearer tok") 0
        demoDbNoUser = .err 401 "User not found" := by
  refine ⟨by decide, by decide⟩

/-- C6 amended: validation of a Bearer token succeeds exactly when the JWT
verifies, a session row with that token exists whose expiry has not passed
at validation time, and the user the JWT decodes to exists; in particular a
token all of whose session rows have expired is always rejected — expiry is
enforced at validation time by the lookup itself, not by background
sweeping. -/
theorem authenticate_characterization (env : CryptoEnv) (sec token : String)
    (now : Nat) (db : Db) :
    (authOk (authenticate env (some sec) (some ("Bearer " ++ token)) now db)
        = true ↔
      ∃ uid em u, env.jwtVerify token sec now = .ok uid em ∧
        (∃ s ∈ db.sessions, s.token = token ∧ now < s.expiresAt) ∧
        db.users.find? (fun x => x.id == uid) = some u) ∧
    ((∀ s ∈ db.sessions, s.token = token → s.expiresAt ≤ now) →
      authOk (authenticate env (some sec) (some ("Bearer " ++ token)) now db)
        = false) := by
  rw [authenticate_bearer]
  constructor
  · cases henv : env.jwtVerify token sec now with
    | invalid =>
      have hred : authenticateToken env (some sec) token now db =
          .err 401 "Invalid token" := by
        simp only [authenticateToken, henv]
      rw [hred]
      constructor
      · intro h; simp [authOk] at h
      · rintro ⟨uid, em, u, heq, -, -⟩; exact absurd heq (by simp)
    | expired =>
      have hred : authenticateToken env (some sec) token now db =
          .err 401 "Invalid token" := by
        simp only [authenticateToken, henv]
      rw [hred]
      constructor
      · intro h; simp [authOk] at h
      · rintro ⟨uid, em, u, heq, -, -⟩; exact absurd heq (by simp)
    | ok juid jem =>
      cases hfind : db.sessions.find?
          (fun s => s.token == token && decide (now < s.expiresAt)) with
      | none =>
        have hred : authenticateToken env (some sec) token now db =
            .err 401 "Invalid or expired session" := by
          simp only [authenticateToken, henv, hfind]
        rw [hred]
        constructor
        · intro h; simp [authOk] at h
        · rintro ⟨uid, em, u, -, ⟨s, hs, hst, hse⟩, -⟩
          rw [List.find?_eq_none] at hfind
          have hp : (s.token == token && decide (now < s.expiresAt)) = true := by
            simp [hst, hse]
          exact absurd hp (by simpa using hfind s hs)
      | some srow =>
        cases hufind : db.users.find? (fun x => x.id == juid) with
        | none =>
          have hred : authenticateToken env (some sec) token now db =
              .err 401 "User not found" := by
            simp only [authenticateToken, henv, hfind, hufind]
          rw [hred]
          constructor
          · intro h; simp [authOk] at h
          · rintro ⟨uid, em, u, heq, -, hu⟩
            injection heq with h1 h2
            subst h1
            rw [hufind] at hu
            exact absurd hu (by simp)
        | some u =>
          have hred : authenticateToken env (some sec) token now db =
              .ok u := by
            simp only [authenticateToken, henv, hfind, hufind]
          rw [hred]
          constructor
          · intro _
            refine ⟨juid, jem, u, rfl, ?_, hufind⟩
            have hmem := List.mem_of_find?_eq_some hfind
            have hp := List.find?_some hfind
            simp only [Bool.and_eq_true, beq_iff_eq, decide_eq_true_eq] at hp
            exact ⟨srow, hmem, hp.1, hp.2⟩
          · intro _; simp [authOk]
  · intro hexp
    cases henv : env.jwtVerify token sec now with
    | invalid =>
      have hred : authenticateToken env (some sec) token now db =
          .err 401 "Invalid token" := by
        simp only [authenticateToken, henv]
      rw [hred]
      simp [authOk]
    | expired =>
      have hred : authenticateToken env (some sec) token now db =
          .err 401 "Invalid token" := by
        simp only [authenticateToken, henv]
      rw [hred]
      simp [authOk]
    | ok juid jem =>
      have hfind : db.sessions.find?
          (fun s => s.token == token && decide (now < s.expiresAt)) = none := by
        rw [List.find?_eq_none]
        intro s hs
        simp only [Bool.and_eq_true, beq_iff_eq, decide_eq_true_eq, not_and]
        intro hst
        have hle := hexp s hs hst
        omega
      have hred : authenticateToken env (some sec) token now db =
          .err 401 "Invalid or expired session" := by
        simp only [authenticateToken, henv, hfind]
      rw [hred]
      simp [authOk]

/-- C6 witness: with the JWT verifying, the unexpired `"tok"` session row
present and its user present, validation passes at time 0. -/
theorem authenticate_characterization_witness :
    authOk (authenticate demoEnvJwt (some "sec") (some ("Bearer " ++ "tok"))
      0 demoDbSession) = true := by
  exact (authenticate_characterization demoEnvJwt "sec" "tok" 0
      demoDbSession).1.mpr
    ⟨"u1", "alice@example.com", demoUser, by decide,
      ⟨demoSession, by decide, by decide, by decide⟩, by decide⟩

/-- The row rewrite the refresh `UPDATE` applies to a matching session. -/
def renewSession (tok : String) (e : Nat) (s : SessionRow) : SessionRow :=
  { s with token := tok, expiresAt := e }

/-- In a session table whose ids are distinct, filtering by a member's id
yields exactly that member. -/
theorem filter_id_singleton (l : List SessionRow) (row : SessionRow)
    (hmem : row ∈ l) (hnd : (l.map (fun s => s.id)).Nodup) :
    l.filter (fun s => s.id == row.id) = [row] := by
  induction l with
  | nil => cases hmem
  | cons hd t ih =>
    rw [List.map_cons, List.nodup_cons] at hnd
    rcases List.mem_cons.mp hmem with rfl | hmt
    · rw [List.filter_cons_of_pos (by simp)]
      have ht : t.filter (fun s => s.id == row.id) = [] := by
        rw [List.filter_eq_nil_iff]
        intro s hs
        simp only [beq_iff_eq]
        intro heq
        exact hnd.1 (heq ▸ List.mem_map_of_mem (fun s => s.id) hs)
      rw [ht]
    · have hne : (hd.id == row.id) = false := by
        simp only [beq_eq_false_iff_ne, ne_eq]
        intro heq
        exact hnd.1 (heq ▸ List.mem_map_of_mem (fun s => s.id) hmt)
      rw [List.filter_cons_of_neg (by simp [hne])]
      exact ih hmt hnd.2

/-- C5: refreshing against the session row for the presented token answers
200 with the newly signed token; afterwards the old token no longer
validates while the new token validates as the same user; and both before
and after the single atomic `UPDATE`, the session row owns exactly one
token — before the refresh the old one, after it the new one. -/
theorem refresh_swaps_token_atomically (env : CryptoEnv) (ctx : ReqCtx)
    (user : UserRow) (row : SessionRow) (db : Db) (now : Nat) (sec : String)
    (hsec : ctx.jwtSecret = some sec)
    (hrow : row ∈ db.sessions)
    (hidnd : (db.sessions.map (fun s => s.id)).Nodup)
    (hNe : env.jwtSign user.id user.email sec now 1 ≠ row.token)
    (hVer : env.jwtVerify (env.jwtSign user.id user.email sec now 1) sec now =
      .ok user.id user.email)
    (hU : db.users.find? (fun x => x.id == user.id) = some user) :
    (refreshToken env ctx user (some ("Bearer " ++ row.token)) now db).1 =
        { status := 200, success := true,
          token := some (env.jwtSign user.id user.email sec now 1) } ∧
      authOk (authenticate env (some sec) (some ("Bearer " ++ row.token)) now
        (refreshToken env ctx user (some ("Bearer " ++ row.token)) now
          db).2) = false ∧
      authenticate env (some sec)
          (some ("Bearer " ++ env.jwtSign user.id user.email sec now 1)) now
          (refreshToken env ctx user (some ("Bearer " ++ row.token)) now
            db).2 = .ok user ∧
      ((db.sessions.filter (fun s => s.id == row.id)).map
          (fun s => s.token)) = [row.token] ∧
      (((refreshToken env ctx user (some ("Bearer " ++ row.token)) now
            db).2.sessions.filter (fun s => s.id == row.id)).map
          (fun s => s.token)) =
        [env.jwtSign user.id user.email sec now 1] := by
  have hresp : (refreshToken env ctx user (some ("Bearer " ++ row.token)) now
      db).1 =
      { status := 200, success := true,
        token := some (env.jwtSign user.id user.email sec now 1) } := by
    simp [refreshToken, hsec, jsStartsWith_bearer, jsSubstringFrom_bearer]
  have hdb : (refreshToken env ctx user (some ("Bearer " ++ row.token)) now
      db).2.sessions = db.sessions.map (fun s =>
        if s.token == row.token then
          renewSession (env.jwtSign user.id user.email sec now 1)
            (now + dayMs) s
        else s) := by
    simp [refreshToken, hsec, jsStartsWith_bearer, jsSubstringFrom_bearer,
      renewSession]
  have hfrow : (fun s : SessionRow =>
      if s.token == row.token then
        renewSession (env.jwtSign user.id user.email sec now 1)
          (now + dayMs) s
      else s) row =
      renewSession (env.jwtSign user.id user.email sec now 1)
        (now + dayMs) row := by
    simp
  refine ⟨hresp, ?_, ?_, ?_, ?_⟩
  · rw [authenticate_bearer]
    cases henv : env.jwtVerify row.token sec now with
    | invalid => simp [authenticateToken, henv, authOk]
    | expired => simp [authenticateToken, henv, authOk]
    | ok juid jem =>
      have hfind : (refreshToken env ctx user
          (some ("Bearer " ++ row.token)) now db).2.sessions.find?
          (fun s => s.token == row.token && decide (now < s.expiresAt)) =
          none := by
        rw [hdb, List.find?_eq_none]
        intro s hs
        obtain ⟨s0, hs0, rfl⟩ := List.mem_map.mp hs
        by_cases hc : (s0.token == row.token) = true
        · rw [if_pos hc]
          simp [renewSession, hNe]
        · rw [if_neg (by simp [hc])]
          simp only [Bool.and_eq_true, not_and]
          intro habs
          exact absurd habs (by simp [hc])
      simp [authenticateToken, henv, hfind, authOk]
  · rw [authenticate_bearer]
    have hmem2 : (fun s : SessionRow =>
        if s.token == row.token then
          renewSession (env.jwtSign user.id user.email sec now 1)
            (now + dayMs) s
        else s) row ∈ (refreshToken env ctx user
          (some ("Bearer " ++ row.token)) now db).2.sessions := by
      rw [hdb]
      exact List.mem_map_of_mem _ hrow
    rw [hfrow] at hmem2
    have hpred : ((renewSession (env.jwtSign user.id user.email sec now 1)
          (now + dayMs) row).token ==
            env.jwtSign user.id user.email sec now 1 &&
          decide (now < (renewSession
            (env.jwtSign user.id user.email sec now 1)
            (now + dayMs) row).expiresAt)) = true := by
      simp [renewSession, dayMs]
    have hsome : ((refreshToken env ctx user
        (some ("Bearer " ++ row.token)) now db).2.sessions.find?
        (fun s => s.token == env.jwtSign user.id user.email sec now 1 &&
          decide (now < s.expiresAt))).isSome := by
      exact List.find?_isSome.mpr ⟨_, hmem2, hpred⟩
    obtain ⟨s2, hs2⟩ := Option.isSome_iff_exists.mp hsome
    have husers : (refreshToken env ctx user (some ("Bearer " ++ row.token))
        now db).2.users = db.users := by
      simp [refreshToken, hsec, jsStartsWith_bearer, jsSubstringFrom_bearer]
    simp only [authenticateToken, hVer, hs2, husers, hU]
  · rw [filter_id_singleton db.sessions row hrow hidnd]
    rfl
  · rw [hdb]
    have hids : ((db.sessions.map (fun s =>
        if s.token == row.token then
          renewSession (env.jwtSign user.id user.email sec now 1)
            (now + dayMs) s
        else s)).map (fun s => s.id)).Nodup := by
      rw [List.map_map]
      have hcong : db.sessions.map ((fun s : SessionRow => s.id) ∘ (fun s =>
          if s.token == row.token then
            renewSession (env.jwtSign user.id user.email sec now 1)
              (now + dayMs) s
          else s)) = db.sessions.map (fun s => s.id) := by
        apply List.map_congr_left
        intro s _
        by_cases hc : (s.token == row.token) = true
        · simp [Function.comp, hc, renewSession]
        · simp [Function.comp, hc]
      rw [hcong]
      exact hidnd
    have hmem2 := List.mem_map_of_mem (fun s : SessionRow =>
        if s.token == row.token then
          renewSession (env.jwtSign user.id user.email sec now 1)
            (now + dayMs) s
        else s) hrow
    rw [hfrow] at hmem2
    have hsing := filter_id_singleton _ _ hmem2 hids
    have hid2 : (renewSession (env.jwtSign user.id user.email sec now 1)
        (now + dayMs) row).id = row.id := rfl
    rw [hid2] at hsing
    rw [hsing]
    rfl

/-- Concrete primitives for the refresh scenario: signing yields
`"new-u1"`, which the verifier decodes back to `demoUser`. -/
def demoEnvRefresh : CryptoEnv where
  bcryptCompare := fun p h => p == h
  jwtSign := fun uid _ _ _ _ => "new-" ++ uid
  jwtVerify := fun t _ _ => if t == "new-u1" then .ok "u1" "alice@example.com"
    else .invalid
  totpGen := fun s c => s ++ toString c

/-- C5 witness: refreshing `demoSession` in `demoDbSession` at time 0
invalidates the old token `"tok"` and makes the new token `"new-u1"`
validate as `demoUser`. -/
theorem refresh_swaps_token_atomically_witness :
    authOk (authenticate demoEnvRefresh (some "jsec")
        (some ("Bearer " ++ demoSession.token)) 0
        (refreshToken demoEnvRefresh demoCtx demoUser
          (some ("Bearer " ++ demoSession.token)) 0 demoDbSession).2) =
      false ∧
    authenticate demoEnvRefresh (some "jsec")
        (some ("Bearer " ++ demoEnvRefresh.jwtSign demoUser.id demoUser.email
          "jsec" 0 1)) 0
        (refreshToken demoEnvRefresh demoCtx demoUser
          (some ("Bearer " ++ demoSession.token)) 0 demoDbSession).2 =
      .ok demoUser := by
  have h := refresh_swaps_token_atomically demoEnvRefresh demoCtx demoUser
    demoSession demoDbSession 0 "jsec" rfl (by decide) (by decide)
    (by decide) (by decide) (by decide)
  exact ⟨h.2.1, h.2.2.1⟩

end Yikes
